import Mathlib

/-!
Shallow embedding of the Stripe webhook reconciler of
`src/app/api/stripe/webhook/route.ts` (AppAutomatedMarketing), together with
proofs about the claims of the specification.

The persistent store (Supabase `users` and `subscriptions` tables), the
provider-side subscription state (what `stripe.subscriptions.retrieve` and
`stripe.subscriptions.cancel` see), and the two process-local maps
(`checkoutSessionMap`, `pendingSubscriptions`) are modelled explicitly; the
handler `POST` is a pure state-transition function from an incoming event and
a processing time to a new state and an HTTP response.  Timestamps are
abstract `Nat` values.  Supabase reads never fail in the model; the failure
points of the translated code are exactly the `throw` sites of the source
(missing parameters, unknown user, unknown provider-side subscription).
-/

namespace AppAutomatedMarketing

/-- A row of the `users` table.  The reconciler only ever reads it. -/
structure UserRecord where
  id : String
  email : String
deriving Repr, DecidableEq

/-- A row of the `subscriptions` table, with the columns written by the
webhook handler. -/
structure SubscriptionRecord where
  user_id : String
  stripe_customer_id : String
  stripe_subscription_id : String
  status : String
  price_id : String
  current_period_end : Nat
  cancel_at_period_end : Bool
  created_at : Nat
  updated_at : Nat
deriving Repr, DecidableEq

/-- Provider-side authoritative subscription data, as returned by
`stripe.subscriptions.retrieve`. -/
structure StripeSubscription where
  id : String
  customer : String
  status : String
  cancel_at_period_end : Bool
  current_period_end : Nat
  itemPriceIds : List String
deriving Repr, DecidableEq

/-- `StoredSessionData` of the source: the value type of `checkoutSessionMap`. -/
structure StoredSessionData where
  userId : String
  customerId : String
deriving Repr, DecidableEq

/-- `StoredSubscriptionData` of the source: the value type of
`pendingSubscriptions`. -/
structure StoredSubscriptionData where
  id : String
  customer : String
deriving Repr, DecidableEq

/-- The relational store: `users` and `subscriptions` tables as row lists. -/
structure Db where
  users : List UserRecord
  subscriptions : List SubscriptionRecord
deriving Repr, DecidableEq

/-- The whole state a webhook delivery can read or write: the database, the
provider-side subscriptions, the two module-level maps, and the log of
cancellation requests issued to the provider. -/
structure WebhookState where
  db : Db
  stripeSubs : List StripeSubscription
  checkoutSessionMap : List (String × StoredSessionData)
  pendingSubscriptions : List (String × StoredSubscriptionData)
  cancelRequests : List String
deriving Repr, DecidableEq

/-- The fields of a `Stripe.Checkout.Session` the handler reads.  `Option`
is `null`/`undefined`; the empty string is also falsy in the source. -/
structure CheckoutSession where
  client_reference_id : Option String
  customer : Option String
  subscription : Option String
  customer_details_email : Option String
  customer_email : Option String
deriving Repr, DecidableEq

/-- The fields of a `Stripe.Subscription` event object the handler reads. -/
structure SubscriptionObject where
  id : String
  customer : String
  status : String
  cancel_at_period_end : Bool
  current_period_end : Nat
deriving Repr, DecidableEq

/-- The event types the switch statement of `POST` distinguishes. -/
inductive Event where
  | checkoutSessionCompleted (session : CheckoutSession)
  | customerSubscriptionCreated (subscription : SubscriptionObject)
  | customerSubscriptionUpdated (subscription : SubscriptionObject)
  | customerSubscriptionPendingUpdateApplied (subscription : SubscriptionObject)
  | customerSubscriptionPendingUpdateExpired (subscription : SubscriptionObject)
  | customerSubscriptionTrialWillEnd (subscription : SubscriptionObject)
  | customerSubscriptionDeleted (subscription : SubscriptionObject)
  | otherEvent
deriving Repr, DecidableEq

/-- The distinct HTTP responses the handler produces (after signature
verification, which is outside the model). -/
inductive WebhookResponse where
  | received
  | blocked
  | receivedWithWarning
  | clientError (message : String)
deriving Repr, DecidableEq

/-- HTTP status code of each response, as set by `NextResponse.json`. -/
def WebhookResponse.statusCode : WebhookResponse → Nat
  | .clientError _ => 400
  | _ => 200

/-- PostgREST `.single()`: the row when exactly one row matches, otherwise
`none` (error code PGRST116, which the callers treat as absence). -/
def singleRow {α : Type} : List α → Option α
  | [a] => some a
  | _ => none

/-- JavaScript truthiness of an optional string: `null`, `undefined` and the
empty string are falsy. -/
def strTruthy : Option String → Bool
  | none => false
  | some s => !s.isEmpty

/-- JavaScript `a || b` on optional strings, normalised so that a falsy
result is `none`. -/
def jsOrString (a b : Option String) : Option String :=
  if strTruthy a then a else if strTruthy b then b else none

/-- SQL `LIKE` matching of a pattern against a string: `%` matches any run
of characters, `_` any single character.  Structurally recursive on a fuel
argument so that it evaluates by kernel reduction; every recursive call
shortens the pattern or the string, so `p.length + s.length + 1` fuel is
enough. -/
def likeFuel : Nat → List Char → List Char → Bool
  | 0, _, _ => false
  | fuel + 1, p, s =>
    match p, s with
    | [], [] => true
    | [], _ :: _ => false
    | '%' :: ps, [] => likeFuel fuel ps []
    | '%' :: ps, c :: cs =>
      likeFuel fuel ps (c :: cs) || likeFuel fuel ('%' :: ps) cs
    | '_' :: _, [] => false
    | '_' :: ps, _ :: cs => likeFuel fuel ps cs
    | _ :: _, [] => false
    | q :: ps, c :: cs => q == c && likeFuel fuel ps cs

/-- SQL `LIKE` with fuel sufficient for any input. -/
def likeMatchList (p s : List Char) : Bool :=
  likeFuel (p.length + s.length + 1) p s

/-- The characters of a string, lowercased (kernel-reducible stand-in for
lowercasing the string itself). -/
def lowerChars (s : String) : List Char := s.data.map Char.toLower

/-- PostgreSQL `ILIKE`: case-insensitive `LIKE`. -/
def ilikeMatches (pattern value : String) : Bool :=
  likeMatchList (lowerChars pattern) (lowerChars value)

/-- `findUserIdByEmail` of the source: `.ilike('email', email).single()`,
returning the id when exactly one user row matches the email used as an
ILIKE pattern, and `null` otherwise (including on error). -/
def findUserIdByEmail (db : Db) (email : String) : Option String :=
  (singleRow (db.users.filter (fun u => ilikeMatches email u.email))).map
    (fun u => u.id)

/-- `checkExistingSubscription` of the source: select the customer rows with
status in {active, trialing} with `.single()` and test the data for
truthiness. -/
def checkExistingSubscription (db : Db) (customerId : String) : Bool :=
  (singleRow (db.subscriptions.filter (fun r =>
    r.stripe_customer_id == customerId &&
      (r.status == "active" || r.status == "trialing")))).isSome

/-- A hexadecimal digit, either case (character class `[0-9a-f]` under the
`i` regex flag). -/
def isHexDigit (c : Char) : Bool :=
  (('0' ≤ c) && (c ≤ '9')) || (('a' ≤ c) && (c ≤ 'f')) || (('A' ≤ c) && (c ≤ 'F'))

/-- Consume exactly `n` hexadecimal digits. -/
def hexRun : Nat → List Char → Option (List Char)
  | 0, cs => some cs
  | _ + 1, [] => none
  | n + 1, c :: cs => if isHexDigit c then hexRun n cs else none

/-- Consume a literal dash. -/
def dashStep : List Char → Option (List Char)
  | '-' :: cs => some cs
  | _ => none

/-- The anchored UUID regex of the source,
8-4-4-4-12 hexadecimal digits separated by dashes, case-insensitive. -/
def isUuidShaped (s : String) : Bool :=
  (((((((((hexRun 8 s.toList).bind dashStep).bind (hexRun 4)).bind
    dashStep).bind (hexRun 4)).bind dashStep).bind (hexRun 4)).bind
    dashStep).bind (hexRun 12)) == some []

/-- `stripe.subscriptions.retrieve`: the provider-side subscription when the
identifier is known, a thrown error otherwise. -/
def stripeRetrieve (subs : List StripeSubscription) (id : String) :
    Except String StripeSubscription :=
  match subs.find? (fun s => s.id == id) with
  | some s => .ok s
  | none => .error "No such subscription"

/-- `stripe.subscriptions.cancel`: succeeds exactly when the identifier names
a provider-side subscription, a thrown error otherwise. -/
def stripeCancel (subs : List StripeSubscription) (id : String) :
    Except String Unit :=
  if (subs.find? (fun s => s.id == id)).isSome then .ok ()
  else .error "No such subscription"

/-- Association-list lookup, mirroring `Map.get`. -/
def mapGet {α : Type} (m : List (String × α)) (k : String) : Option α :=
  (m.find? (fun p => p.1 == k)).map (fun p => p.2)

/-- Association-list insertion, mirroring `Map.set`. -/
def mapSet {α : Type} (m : List (String × α)) (k : String) (v : α) :
    List (String × α) :=
  (m.filter (fun p => p.1 != k)) ++ [(k, v)]

/-- Association-list removal, mirroring `Map.delete`. -/
def mapDelete {α : Type} (m : List (String × α)) (k : String) :
    List (String × α) :=
  m.filter (fun p => p.1 != k)

/-- `createSubscription` of the source.  Throws (`.error`) on a missing
parameter, an unknown user id, or an unknown provider-side subscription id;
otherwise updates the row with this subscription id in place when exactly one
exists (returning the row as read before the update), and inserts a fully
populated new row otherwise (returning the row as re-read for verification,
since `insert` without `select` returns no data). -/
def createSubscription (db : Db) (stripeSubs : List StripeSubscription)
    (now : Nat) (subscriptionId userId customerId : String) :
    Except String (Db × Option SubscriptionRecord) :=
  if subscriptionId.isEmpty || userId.isEmpty || customerId.isEmpty then
    .error "Missing required parameters for createSubscription"
  else
    match singleRow (db.users.filter (fun u => u.id == userId)) with
    | none => .error "User ID not found in database"
    | some _ =>
      match stripeRetrieve stripeSubs subscriptionId with
      | .error e => .error e
      | .ok stripeSubscription =>
        match singleRow (db.subscriptions.filter
            (fun r => r.stripe_subscription_id == subscriptionId)) with
        | some existingData =>
          let updatedSubs := db.subscriptions.map (fun r =>
            if r.stripe_subscription_id == subscriptionId then
              { r with
                status := stripeSubscription.status,
                current_period_end := stripeSubscription.current_period_end,
                cancel_at_period_end := stripeSubscription.cancel_at_period_end,
                updated_at := now }
            else r)
          .ok ({ db with subscriptions := updatedSubs }, some existingData)
        | none =>
          let headPrice := (stripeSubscription.itemPriceIds.headD "")
          let newSubscription : SubscriptionRecord := {
            user_id := userId,
            stripe_customer_id := customerId,
            stripe_subscription_id := subscriptionId,
            status := stripeSubscription.status,
            price_id := if headPrice.isEmpty then "unknown" else headPrice,
            current_period_end := stripeSubscription.current_period_end,
            cancel_at_period_end := stripeSubscription.cancel_at_period_end,
            created_at := now,
            updated_at := now }
          let db2 := { db with
            subscriptions := db.subscriptions ++ [newSubscription] }
          let verifyData := singleRow (db2.subscriptions.filter
            (fun r => r.stripe_subscription_id == subscriptionId))
          .ok (db2, verifyData)

/-- Lines 151-214 of the source: resolve the user id of a checkout session
from `client_reference_id`, falling back to an email lookup when it is
missing or not UUID-shaped, then validate that the chosen id exists,
retrying the email lookup once.  `.error` carries the 400 response
returned on failure. -/
def resolveCheckoutUserId (db : Db) (session : CheckoutSession) :
    Except WebhookResponse String :=
  let userId0 := session.client_reference_id.getD ""
  let email := jsOrString session.customer_details_email session.customer_email
  let step1 : Except WebhookResponse String :=
    if userId0.isEmpty || !isUuidShaped userId0 then
      match email with
      | some e =>
        match findUserIdByEmail db e with
        | some foundUserId => .ok foundUserId
        | none => .error (.clientError "User not found")
      | none => .error (.clientError "No email to identify user")
    else
      .ok userId0
  match step1 with
  | .error r => .error r
  | .ok userId1 =>
    match singleRow (db.users.filter (fun u => u.id == userId1)) with
    | some _ => .ok userId1
    | none =>
      match email with
      | some e =>
        match findUserIdByEmail db e with
        | some foundUserId => .ok foundUserId
        | none => .error (.clientError "User ID not valid")
      | none => .error (.clientError "User ID not valid and no email to retry")

/-- Lines 216-270 of the source: the part of the checkout-completion case
inside the try block whose catch acknowledges the event anyway — duplicate
check, compensating cancellation, and `createSubscription`. -/
def reconcileCheckout (st : WebhookState) (now : Nat)
    (subscriptionId userId customerId : String) :
    Except String (WebhookState × WebhookResponse) :=
  if checkExistingSubscription st.db customerId then
    match stripeCancel st.stripeSubs subscriptionId with
    | .error e => .error e
    | .ok _ =>
      .ok ({ st with cancelRequests := st.cancelRequests ++ [subscriptionId] },
           .blocked)
  else
    match createSubscription st.db st.stripeSubs now subscriptionId userId
        customerId with
    | .error e => .error e
    | .ok (db2, _) => .ok ({ st with db := db2 }, .received)

/-- The `checkout.session.completed` case of `POST`: required-field
validation, identity resolution, then reconciliation with failures caught
and acknowledged. -/
def handleCheckoutSessionCompleted (st : WebhookState) (now : Nat)
    (session : CheckoutSession) : WebhookState × WebhookResponse :=
  if !strTruthy session.subscription then
    (st, .clientError "Missing subscription ID")
  else if !strTruthy session.customer then
    (st, .clientError "Missing customer ID")
  else
    match resolveCheckoutUserId st.db session with
    | .error r => (st, r)
    | .ok userId =>
      match reconcileCheckout st now (session.subscription.getD "") userId
          (session.customer.getD "") with
      | .ok (st2, resp) => (st2, resp)
      | .error _ => (st, .receivedWithWarning)

/-- The `customer.subscription.created` case of `POST`: consume a stored
checkout session from `checkoutSessionMap` when present (a throw from
`createSubscription` escapes to the outer catch, a 400), otherwise stash the
subscription into `pendingSubscriptions`. -/
def handleSubscriptionCreated (st : WebhookState) (now : Nat)
    (subscription : SubscriptionObject) : WebhookState × WebhookResponse :=
  match mapGet st.checkoutSessionMap subscription.id with
  | some sessionData =>
    match createSubscription st.db st.stripeSubs now subscription.id
        sessionData.userId sessionData.customerId with
    | .ok (db2, _) =>
      ({ st with
          db := db2,
          checkoutSessionMap := mapDelete st.checkoutSessionMap subscription.id },
       .received)
    | .error _ => (st, .clientError "Webhook handler failed")
  | none =>
    ({ st with
        pendingSubscriptions := mapSet st.pendingSubscriptions subscription.id
          { id := subscription.id, customer := subscription.customer } },
     .received)

/-- The `customer.subscription.updated` / pending-update / trial-will-end
case of `POST`: update status, cancellation flag and period end on every row
matching the subscription id (zero rows is not an error). -/
def handleSubscriptionUpdate (st : WebhookState) (now : Nat)
    (subscription : SubscriptionObject) : WebhookState × WebhookResponse :=
  let subs := st.db.subscriptions.map (fun r =>
    if r.stripe_subscription_id == subscription.id then
      { r with
        status := subscription.status,
        cancel_at_period_end := subscription.cancel_at_period_end,
        current_period_end := subscription.current_period_end,
        updated_at := now }
    else r)
  ({ st with db := { st.db with subscriptions := subs } }, .received)

/-- The `customer.subscription.deleted` case of `POST`: set the event status,
clear the cancellation flag, and set the period end to the processing time on
every row matching the subscription id. -/
def handleSubscriptionDeleted (st : WebhookState) (now : Nat)
    (subscription : SubscriptionObject) : WebhookState × WebhookResponse :=
  let subs := st.db.subscriptions.map (fun r =>
    if r.stripe_subscription_id == subscription.id then
      { r with
        status := subscription.status,
        cancel_at_period_end := false,
        current_period_end := now,
        updated_at := now }
    else r)
  ({ st with db := { st.db with subscriptions := subs } }, .received)

/-- The switch statement of `POST`, after signature verification (which is
performed by the provider SDK before any reconciliation logic runs). -/
def POST (st : WebhookState) (now : Nat) (event : Event) :
    WebhookState × WebhookResponse :=
  match event with
  | .checkoutSessionCompleted session =>
    handleCheckoutSessionCompleted st now session
  | .customerSubscriptionCreated s => handleSubscriptionCreated st now s
  | .customerSubscriptionUpdated s => handleSubscriptionUpdate st now s
  | .customerSubscriptionPendingUpdateApplied s =>
    handleSubscriptionUpdate st now s
  | .customerSubscriptionPendingUpdateExpired s =>
    handleSubscriptionUpdate st now s
  | .customerSubscriptionTrialWillEnd s => handleSubscriptionUpdate st now s
  | .customerSubscriptionDeleted s => handleSubscriptionDeleted st now s
  | .otherEvent => (st, .received)

/-- The row `createSubscription` inserts when no row with the subscription
identifier exists: all fields populated from the inputs and the
provider-side subscription, the price falling back to the sentinel
`"unknown"` when the provider returns no (or an empty) line-item price. -/
def newSubscriptionRow (S U C : String) (ss : StripeSubscription)
    (now : Nat) : SubscriptionRecord :=
  { user_id := U, stripe_customer_id := C, stripe_subscription_id := S,
    status := ss.status,
    price_id := if (ss.itemPriceIds.headD "").isEmpty then "unknown"
      else ss.itemPriceIds.headD "",
    current_period_end := ss.current_period_end,
    cancel_at_period_end := ss.cancel_at_period_end,
    created_at := now, updated_at := now }

/-! Concrete fixtures used by witnesses and counterexamples. -/

/-- A UUID-shaped user identifier. -/
def uuidA : String := "11111111-1111-4111-8111-111111111111"

/-- A user row. -/
def userA : UserRecord := { id := uuidA, email := "ab@x.com" }

/-- Provider-side subscription `sub_1` of customer `cus_1`, active. -/
def stripeSub1 : StripeSubscription :=
  { id := "sub_1", customer := "cus_1", status := "active",
    cancel_at_period_end := false, current_period_end := 100,
    itemPriceIds := ["price_1"] }

/-- Provider-side subscription `sub_2` of customer `cus_1`, active. -/
def stripeSub2 : StripeSubscription :=
  { id := "sub_2", customer := "cus_1", status := "active",
    cancel_at_period_end := false, current_period_end := 200,
    itemPriceIds := ["price_2"] }

/-- A clean initial state: one user, no subscription rows, provider knows
`sub_1` and `sub_2`, maps empty, no cancellations issued. -/
def cleanState : WebhookState :=
  { db := { users := [userA], subscriptions := [] },
    stripeSubs := [stripeSub1, stripeSub2],
    checkoutSessionMap := [], pendingSubscriptions := [],
    cancelRequests := [] }

/-- A checkout session for `sub_1`, `cus_1`, with a valid client reference. -/
def sessionSub1 : CheckoutSession :=
  { client_reference_id := some uuidA, customer := some "cus_1",
    subscription := some "sub_1", customer_details_email := none,
    customer_email := none }

/-- The subscription object of the `customer.subscription.created` event for
`sub_1`. -/
def subObj1 : SubscriptionObject :=
  { id := "sub_1", customer := "cus_1", status := "incomplete",
    cancel_at_period_end := false, current_period_end := 100 }

/-- C3 counterexample: two stored rows of customer `cus_1`, one active and
one trialing. -/
def fxC3rowA : SubscriptionRecord :=
  { user_id := uuidA, stripe_customer_id := "cus_1",
    stripe_subscription_id := "sub_A", status := "active",
    price_id := "price_1", current_period_end := 100,
    cancel_at_period_end := false, created_at := 1, updated_at := 1 }

/-- Second stored row of customer `cus_1`. -/
def fxC3rowB : SubscriptionRecord :=
  { user_id := uuidA, stripe_customer_id := "cus_1",
    stripe_subscription_id := "sub_B", status := "trialing",
    price_id := "price_1", current_period_end := 100,
    cancel_at_period_end := false, created_at := 2, updated_at := 2 }

/-- State in which customer `cus_1` already holds two active/trialing rows. -/
def fxC3state : WebhookState :=
  { db := { users := [userA], subscriptions := [fxC3rowA, fxC3rowB] },
    stripeSubs := [stripeSub1, stripeSub2],
    checkoutSessionMap := [], pendingSubscriptions := [],
    cancelRequests := [] }

/-- State in which customer `cus_1` holds exactly one active row. -/
def fxC3oneState : WebhookState :=
  { db := { users := [userA], subscriptions := [fxC3rowA] },
    stripeSubs := [stripeSub1, stripeSub2],
    checkoutSessionMap := [], pendingSubscriptions := [],
    cancelRequests := [] }

/-- A checkout session for the fresh subscription `sub_2` of `cus_1`. -/
def sessionSub2 : CheckoutSession :=
  { client_reference_id := some uuidA, customer := some "cus_1",
    subscription := some "sub_2", customer_details_email := none,
    customer_email := none }

/-- C4 counterexample session: no client reference, and an email whose `%`
acts as an ILIKE wildcard against the stored email `ab@x.com`. -/
def fxC4session : CheckoutSession :=
  { client_reference_id := none, customer := some "cus_1",
    subscription := some "sub_1", customer_details_email := some "a%@x.com",
    customer_email := none }

/-- C4 witness session: no client reference and an email matching no user. -/
def fxC4wSession : CheckoutSession :=
  { client_reference_id := none, customer := some "cus_1",
    subscription := some "sub_1", customer_details_email := some "zzz@x.com",
    customer_email := none }

/-- C5 witness state: the provider does not know any subscription, so
`createSubscription` fails on `stripe.subscriptions.retrieve`. -/
def fxC5state : WebhookState :=
  { db := { users := [userA], subscriptions := [] },
    stripeSubs := [], checkoutSessionMap := [], pendingSubscriptions := [],
    cancelRequests := [] }

/-- C6 witness: a stored row for `sub_1` whose status differs from the
provider-side one. -/
def fxC6row : SubscriptionRecord :=
  { user_id := uuidA, stripe_customer_id := "cus_1",
    stripe_subscription_id := "sub_1", status := "past_due",
    price_id := "price_0", current_period_end := 50,
    cancel_at_period_end := true, created_at := 1, updated_at := 1 }

/-- C6 witness database holding exactly the row for `sub_1`. -/
def fxC6db : Db := { users := [userA], subscriptions := [fxC6row] }

/-- A subscription object whose identifier matches no stored row. -/
def subObj9 : SubscriptionObject :=
  { id := "sub_9", customer := "cus_9", status := "canceled",
    cancel_at_period_end := true, current_period_end := 300 }

/-! Helper lemmas. -/

theorem singleRow_eq_some_iff {α : Type} {l : List α} {a : α} :
    singleRow l = some a ↔ l = [a] := by
  cases l with
  | nil => simp [singleRow]
  | cons x t =>
    cases t with
    | nil => simp [singleRow]
    | cons y t2 => simp [singleRow]

theorem singleRow_isSome_iff {α : Type} {l : List α} :
    (singleRow l).isSome = true ↔ l.length = 1 := by
  cases l with
  | nil => simp [singleRow]
  | cons x t =>
    cases t with
    | nil => simp [singleRow]
    | cons y t2 =>
      simp only [singleRow, Option.isSome_none, List.length_cons]
      constructor
      · intro h; cases h
      · intro h; omega

theorem checkExisting_iff_length_one (db : Db) (customerId : String) :
    checkExistingSubscription db customerId = true ↔
      (db.subscriptions.filter (fun r =>
        r.stripe_customer_id == customerId &&
          (r.status == "active" || r.status == "trialing"))).length = 1 := by
  unfold checkExistingSubscription
  exact singleRow_isSome_iff

theorem checkExisting_false_of_length_ne_one (db : Db) (customerId : String)
    (h : (db.subscriptions.filter (fun r =>
        r.stripe_customer_id == customerId &&
          (r.status == "active" || r.status == "trialing"))).length ≠ 1) :
    checkExistingSubscription db customerId = false := by
  cases hb : checkExistingSubscription db customerId with
  | false => rfl
  | true => exact absurd ((checkExisting_iff_length_one db customerId).mp hb) h

theorem createSubscription_ok_users (db db2 : Db)
    (stripeSubs : List StripeSubscription) (now : Nat) (S U C : String)
    (r : Option SubscriptionRecord)
    (h : createSubscription db stripeSubs now S U C = .ok (db2, r)) :
    db2.users = db.users := by
  unfold createSubscription at h
  split at h
  · exact Except.noConfusion h
  · split at h
    · exact Except.noConfusion h
    · split at h
      · exact Except.noConfusion h
      · split at h
        · injection h with h1
          injection h1 with ha hb
          rw [← ha]
        · injection h with h1
          injection h1 with ha hb
          rw [← ha]

theorem createSubscription_update_eq (db : Db)
    (stripeSubs : List StripeSubscription) (now : Nat) (S U C : String)
    (ss : StripeSubscription) (u : UserRecord) (r : SubscriptionRecord)
    (hS : S.isEmpty = false) (hU : U.isEmpty = false) (hC : C.isEmpty = false)
    (huser : db.users.filter (fun x => x.id == U) = [u])
    (hstripe : stripeSubs.find? (fun x => x.id == S) = some ss)
    (hexist : db.subscriptions.filter
      (fun x => x.stripe_subscription_id == S) = [r]) :
    createSubscription db stripeSubs now S U C =
      .ok ({ db with subscriptions := db.subscriptions.map (fun x =>
               if x.stripe_subscription_id == S then
                 { r with
                   status := ss.status,
                   current_period_end := ss.current_period_end,
                   cancel_at_period_end := ss.cancel_at_period_end,
                   updated_at := now }
               else x) }, some r) := by
  unfold createSubscription stripeRetrieve
  rw [hS, hU, hC, huser, hstripe, hexist]
  simp only [Bool.or_self, Bool.false_or, if_false, singleRow]
  have hmap : db.subscriptions.map (fun x =>
      if x.stripe_subscription_id == S then
        { x with
          status := ss.status,
          current_period_end := ss.current_period_end,
          cancel_at_period_end := ss.cancel_at_period_end,
          updated_at := now }
      else x) =
    db.subscriptions.map (fun x =>
      if x.stripe_subscription_id == S then
        { r with
          status := ss.status,
          current_period_end := ss.current_period_end,
          cancel_at_period_end := ss.cancel_at_period_end,
          updated_at := now }
      else x) := by
    apply List.map_congr_left
    intro x hx
    by_cases hc : (x.stripe_subscription_id == S) = true
    · have hxr : x ∈ db.subscriptions.filter
          (fun y => y.stripe_subscription_id == S) :=
        List.mem_filter.mpr ⟨hx, hc⟩
      rw [hexist] at hxr
      simp only [List.mem_singleton] at hxr
      rw [if_pos hc, if_pos hc, hxr]
    · rw [if_neg hc, if_neg hc]
  rw [hmap]
  simp

theorem createSubscription_insert_eq (db : Db)
    (stripeSubs : List StripeSubscription) (now : Nat) (S U C : String)
    (ss : StripeSubscription) (u : UserRecord)
    (hS : S.isEmpty = false) (hU : U.isEmpty = false) (hC : C.isEmpty = false)
    (huser : db.users.filter (fun x => x.id == U) = [u])
    (hstripe : stripeSubs.find? (fun x => x.id == S) = some ss)
    (hnone : db.subscriptions.filter
      (fun x => x.stripe_subscription_id == S) = []) :
    createSubscription db stripeSubs now S U C =
      .ok ({ db with subscriptions := db.subscriptions ++
              [newSubscriptionRow S U C ss now] },
           some (newSubscriptionRow S U C ss now)) := by
  unfold createSubscription stripeRetrieve newSubscriptionRow
  rw [hS, hU, hC, huser, hstripe]
  simp only [Bool.or_self, Bool.false_or, if_false, singleRow, hnone,
    List.filter_append, List.filter_cons, List.filter_nil, beq_self_eq_true,
    if_true, List.nil_append]
  simp

theorem resolveCheckoutUserId_valid_cri (db : Db) (session : CheckoutSession)
    (U : String) (u : UserRecord)
    (hcri : session.client_reference_id = some U)
    (hU : isUuidShaped U = true) (hUne : U.isEmpty = false)
    (huser : db.users.filter (fun x => x.id == U) = [u]) :
    resolveCheckoutUserId db session = .ok U := by
  unfold resolveCheckoutUserId
  rw [hcri]
  simp [hU, hUne, huser, singleRow]

theorem reconcileCheckout_ok_users (st st2 : WebhookState) (now : Nat)
    (a b c : String) (resp : WebhookResponse)
    (h : reconcileCheckout st now a b c = .ok (st2, resp)) :
    st2.db.users = st.db.users := by
  unfold reconcileCheckout at h
  split at h
  · split at h
    · exact Except.noConfusion h
    · injection h with h1
      injection h1 with ha hb
      rw [← ha]
  · split at h
    · exact Except.noConfusion h
    · rename_i db2 r2 heq
      injection h with h1
      injection h1 with ha hb
      rw [← ha]
      exact createSubscription_ok_users st.db db2 st.stripeSubs now a b c r2 heq

theorem handleCheckout_users (st : WebhookState) (now : Nat)
    (session : CheckoutSession) :
    (handleCheckoutSessionCompleted st now session).1.db.users = st.db.users := by
  unfold handleCheckoutSessionCompleted
  split
  · rfl
  · split
    · rfl
    · split
      · rfl
      · split
        · rename_i st2 resp heq
          exact reconcileCheckout_ok_users st st2 now _ _ _ resp heq
        · rfl

theorem handleSubscriptionCreated_users (st : WebhookState) (now : Nat)
    (sub : SubscriptionObject) :
    (handleSubscriptionCreated st now sub).1.db.users = st.db.users := by
  unfold handleSubscriptionCreated
  split
  · rename_i sessionData hget
    split
    · rename_i db2 r2 heq
      exact createSubscription_ok_users st.db db2 st.stripeSubs now _ _ _ r2 heq
    · rfl
  · rfl

/-- C9: the users table is read-only.  Every event, on every state, leaves
the `users` table exactly as it was: all accesses of the handler to the user
store are reads. -/
theorem C9_users_read_only (st : WebhookState) (now : Nat) (event : Event) :
    (POST st now event).1.db.users = st.db.users := by
  cases event with
  | checkoutSessionCompleted s => exact handleCheckout_users st now s
  | customerSubscriptionCreated s => exact handleSubscriptionCreated_users st now s
  | customerSubscriptionUpdated s => rfl
  | customerSubscriptionPendingUpdateApplied s => rfl
  | customerSubscriptionPendingUpdateExpired s => rfl
  | customerSubscriptionTrialWillEnd s => rfl
  | customerSubscriptionDeleted s => rfl
  | otherEvent => rfl

/-- C10: `checkExistingSubscription` answers true exactly when exactly one
stored subscription row of the customer has status active or trialing; with
zero matching rows, and also with two or more, it answers false (the
`.single()` lookup errors and the data is null). -/
theorem C10_checkExistingSubscription_iff_unique (db : Db)
    (customerId : String) :
    (checkExistingSubscription db customerId = true ↔
      (db.subscriptions.filter (fun r =>
        r.stripe_customer_id == customerId &&
          (r.status == "active" || r.status == "trialing"))).length = 1) ∧
    ((db.subscriptions.filter (fun r =>
        r.stripe_customer_id == customerId &&
          (r.status == "active" || r.status == "trialing"))).length ≠ 1 →
      checkExistingSubscription db customerId = false) :=
  ⟨checkExisting_iff_length_one db customerId,
   checkExisting_false_of_length_ne_one db customerId⟩

theorem C10_checkExistingSubscription_iff_unique_witness :
    checkExistingSubscription fxC3oneState.db "cus_1" = true ∧
    checkExistingSubscription fxC3state.db "cus_1" = false :=
  ⟨(C10_checkExistingSubscription_iff_unique fxC3oneState.db "cus_1").1.mpr
      (by decide),
   (C10_checkExistingSubscription_iff_unique fxC3state.db "cus_1").2
      (by decide)⟩

/-- C8: a subscription-updated, pending-update-applied, pending-update-expired
or trial-will-end event whose subscription identifier matches no stored row
is a no-op that acknowledges the event: the state is unchanged and the
response is the plain success acknowledgement. -/
theorem C8_update_events_noop (st : WebhookState) (now : Nat)
    (sub : SubscriptionObject)
    (hnone : ∀ r ∈ st.db.subscriptions, r.stripe_subscription_id ≠ sub.id) :
    POST st now (.customerSubscriptionUpdated sub) = (st, .received) ∧
    POST st now (.customerSubscriptionPendingUpdateApplied sub) = (st, .received) ∧
    POST st now (.customerSubscriptionPendingUpdateExpired sub) = (st, .received) ∧
    POST st now (.customerSubscriptionTrialWillEnd sub) = (st, .received) := by
  have hmap : st.db.subscriptions.map (fun r =>
      if r.stripe_subscription_id == sub.id then
        { r with
          status := sub.status,
          cancel_at_period_end := sub.cancel_at_period_end,
          current_period_end := sub.current_period_end,
          updated_at := now }
      else r) = st.db.subscriptions := by
    conv_rhs => rw [← List.map_id st.db.subscriptions]
    apply List.map_congr_left
    intro r hr
    have hb : (r.stripe_subscription_id == sub.id) = false :=
      beq_eq_false_iff_ne.mpr (hnone r hr)
    simp [hb]
  have key : handleSubscriptionUpdate st now sub = (st, .received) := by
    unfold handleSubscriptionUpdate
    rw [hmap]
  exact ⟨key, key, key, key⟩

theorem C8_update_events_noop_witness :
    POST cleanState 5 (.customerSubscriptionUpdated subObj9) =
      (cleanState, .received) :=
  (C8_update_events_noop cleanState 5 subObj9 (by decide)).1

theorem forall2_map_of_mem {α β : Type} (P : α → β → Prop) (f : α → β)
    (l : List α) (h : ∀ x ∈ l, P x (f x)) : List.Forall₂ P l (l.map f) := by
  induction l with
  | nil => exact List.Forall₂.nil
  | cons a t ih =>
    exact List.Forall₂.cons (h a (List.mem_cons_self a t))
      (ih (fun x hx => h x (List.mem_cons_of_mem a hx)))

/-- C7: a subscription-deleted event acknowledges with success; every stored
row matching the event's subscription identifier gets the event's status, a
cleared cancel-at-period-end flag, the processing time as period end, and a
fresh updated-timestamp, while every other row is untouched; if no row
matches, the state is unchanged and the event is still acknowledged. -/
theorem C7_subscription_deleted_postcondition (st : WebhookState) (now : Nat)
    (sub : SubscriptionObject) :
    (POST st now (.customerSubscriptionDeleted sub)).2 = .received ∧
    List.Forall₂ (fun oldR newR =>
        (oldR.stripe_subscription_id = sub.id →
          newR = { oldR with
            status := sub.status, cancel_at_period_end := false,
            current_period_end := now, updated_at := now }) ∧
        (oldR.stripe_subscription_id ≠ sub.id → newR = oldR))
      st.db.subscriptions
      (POST st now (.customerSubscriptionDeleted sub)).1.db.subscriptions ∧
    ((∀ r ∈ st.db.subscriptions, r.stripe_subscription_id ≠ sub.id) →
      (POST st now (.customerSubscriptionDeleted sub)).1 = st) := by
  have hpost : (POST st now (.customerSubscriptionDeleted sub)) =
      ({ st with db := { st.db with
          subscriptions := st.db.subscriptions.map (fun r =>
            if r.stripe_subscription_id == sub.id then
              { r with
                status := sub.status, cancel_at_period_end := false,
                current_period_end := now, updated_at := now }
            else r) } }, .received) := rfl
  rw [hpost]
  refine ⟨rfl, ?_, ?_⟩
  · apply forall2_map_of_mem
    intro x hx
    constructor
    · intro heq
      have hb : (x.stripe_subscription_id == sub.id) = true :=
        beq_iff_eq.mpr heq
      simp [hb]
    · intro hne
      have hb : (x.stripe_subscription_id == sub.id) = false :=
        beq_eq_false_iff_ne.mpr hne
      simp [hb]
  · intro hnone
    have hmap : st.db.subscriptions.map (fun r =>
        if r.stripe_subscription_id == sub.id then
          { r with
            status := sub.status, cancel_at_period_end := false,
            current_period_end := now, updated_at := now }
        else r) = st.db.subscriptions := by
      conv_rhs => rw [← List.map_id st.db.subscriptions]
      apply List.map_congr_left
      intro r hr
      have hb : (r.stripe_subscription_id == sub.id) = false :=
        beq_eq_false_iff_ne.mpr (hnone r hr)
      simp [hb]
    rw [hmap]

theorem C7_subscription_deleted_postcondition_witness :
    (POST cleanState 7 (.customerSubscriptionDeleted subObj9)).1 = cleanState ∧
    (POST cleanState 7 (.customerSubscriptionDeleted subObj9)).2 = .received :=
  ⟨(C7_subscription_deleted_postcondition cleanState 7 subObj9).2.2 (by decide),
   (C7_subscription_deleted_postcondition cleanState 7 subObj9).1⟩

theorem handleCheckout_insert (st : WebhookState) (now : Nat)
    (S C U : String) (session : CheckoutSession) (ss : StripeSubscription)
    (u : UserRecord)
    (hsession : session = { client_reference_id := some U,
                            customer := some C, subscription := some S,
                            customer_details_email := none,
                            customer_email := none })
    (hS : S.isEmpty = false) (hC : C.isEmpty = false)
    (hU : isUuidShaped U = true) (hUne : U.isEmpty = false)
    (huser : st.db.users.filter (fun x => x.id == U) = [u])
    (hnoactive : checkExistingSubscription st.db C = false)
    (hnorec : st.db.subscriptions.filter
      (fun r => r.stripe_subscription_id == S) = [])
    (hstripe : st.stripeSubs.find? (fun x => x.id == S) = some ss) :
    POST st now (.checkoutSessionCompleted session) =
      ({ st with db := { st.db with subscriptions :=
          st.db.subscriptions ++ [newSubscriptionRow S U C ss now] } },
       .received) := by
  subst hsession
  have hres := resolveCheckoutUserId_valid_cri st.db
    { client_reference_id := some U, customer := some C,
      subscription := some S, customer_details_email := none,
      customer_email := none } U u rfl hU hUne huser
  have hins := createSubscription_insert_eq st.db st.stripeSubs now S U C ss u
    hS hUne hC huser hstripe hnorec
  have hrec : reconcileCheckout st now S U C =
      .ok ({ st with db := { st.db with subscriptions :=
          st.db.subscriptions ++ [newSubscriptionRow S U C ss now] } },
        .received) := by
    unfold reconcileCheckout
    rw [hnoactive]
    simp [hins]
  simp only [POST, handleCheckoutSessionCompleted]
  simp [strTruthy, hS, hC, hres, hrec]

/-- C5: once a checkout-completion event has passed input validation and
identity resolution, any failure raised by the reconciliation phase
(duplicate check, compensating cancellation, `createSubscription`) is caught
and the handler still answers a 2xx acknowledgement with the state rolled
back to the pre-event state; a checkout-completion event missing its
subscription identifier, or its customer identifier, is instead rejected
with a 400 client error before any reconciliation, with nothing written and
no cancellation issued. -/
theorem C5_checkout_failure_swallowing (st : WebhookState) (now : Nat)
    (session : CheckoutSession) :
    (∀ userId e, strTruthy session.subscription = true →
      strTruthy session.customer = true →
      resolveCheckoutUserId st.db session = .ok userId →
      reconcileCheckout st now (session.subscription.getD "") userId
        (session.customer.getD "") = .error e →
      POST st now (.checkoutSessionCompleted session) =
        (st, .receivedWithWarning) ∧
      WebhookResponse.statusCode .receivedWithWarning = 200) ∧
    (strTruthy session.subscription = false →
      POST st now (.checkoutSessionCompleted session) =
        (st, .clientError "Missing subscription ID") ∧
      WebhookResponse.statusCode (.clientError "Missing subscription ID") = 400) ∧
    (strTruthy session.subscription = true →
      strTruthy session.customer = false →
      POST st now (.checkoutSessionCompleted session) =
        (st, .clientError "Missing customer ID")) := by
  refine ⟨?_, ?_, ?_⟩
  · intro userId e hsub hcus hres hrec
    refine ⟨?_, rfl⟩
    simp only [POST, handleCheckoutSessionCompleted]
    simp [hsub, hcus, hres, hrec]
  · intro hsub
    refine ⟨?_, rfl⟩
    simp only [POST, handleCheckoutSessionCompleted]
    simp [hsub]
  · intro hsub hcus
    simp only [POST, handleCheckoutSessionCompleted]
    simp [hsub, hcus]

theorem C5_checkout_failure_swallowing_witness :
    POST fxC5state 7 (.checkoutSessionCompleted sessionSub1) =
      (fxC5state, .receivedWithWarning) :=
  (((C5_checkout_failure_swallowing fxC5state 7 sessionSub1).1) uuidA
    "No such subscription" (by rfl) (by rfl) (by rfl) (by rfl)).1

/-- C4, counterexample: the stored email `ab@x.com` is matched by the session
email `a%@x.com` used as an ILIKE pattern, although a case-insensitive exact
lookup matches no user; the claim as stated then requires an
identity-resolution client error with nothing written, but the handler
answers plain success and writes a subscription row. -/
theorem C4_counterexample :
    (cleanState.db.users.filter
        (fun u => lowerChars u.email == lowerChars "a%@x.com")) = [] ∧
    (POST cleanState 10 (.checkoutSessionCompleted fxC4session)).2 =
      .received ∧
    (POST cleanState 10
      (.checkoutSessionCompleted fxC4session)).1.db.subscriptions ≠ [] := by
  decide

/-- C4, amended: the email lookup is a case-insensitive SQL ILIKE match with
the session email used as the pattern (so `%` and `_` act as wildcards; on
wildcard-free emails this is an exact comparison).  For a checkout-completion
whose candidate user identifier is absent or not UUID-shaped: when the email
pattern matches no single user, the operation fails with the client error
`User not found` and no state is written; when it finds exactly one user,
identity resolves to that user's identifier. -/
theorem C4_amended_identity_resolution (st : WebhookState) (now : Nat)
    (session : CheckoutSession) (e : String)
    (hsub : strTruthy session.subscription = true)
    (hcus : strTruthy session.customer = true)
    (hcri : (session.client_reference_id.getD "").isEmpty = true ∨
            isUuidShaped (session.client_reference_id.getD "") = false)
    (hemail : jsOrString session.customer_details_email
        session.customer_email = some e) :
    (findUserIdByEmail st.db e = none →
      POST st now (.checkoutSessionCompleted session) =
        (st, .clientError "User not found")) ∧
    (∀ uid, findUserIdByEmail st.db e = some uid →
      resolveCheckoutUserId st.db session = .ok uid) := by
  have hcond : ((session.client_reference_id.getD "").isEmpty ||
      !isUuidShaped (session.client_reference_id.getD "")) = true := by
    rcases hcri with h | h
    · simp [h]
    · simp [h]
  constructor
  · intro hnone
    have hres : resolveCheckoutUserId st.db session =
        .error (.clientError "User not found") := by
      unfold resolveCheckoutUserId
      simp [hcond, hemail, hnone]
    simp only [POST, handleCheckoutSessionCompleted]
    simp [hsub, hcus, hres]
  · intro uid hsome
    unfold resolveCheckoutUserId
    simp only [hcond, if_true, hemail, hsome]
    cases hs : singleRow (st.db.users.filter (fun x => x.id == uid)) with
    | some u => simp [hcond, hemail, hsome, hs]
    | none => simp [hcond, hemail, hsome, hs]

theorem C4_amended_identity_resolution_witness :
    POST cleanState 9 (.checkoutSessionCompleted fxC4wSession) =
      (cleanState, .clientError "User not found") :=
  (C4_amended_identity_resolution cleanState 9 fxC4wSession "zzz@x.com"
    (by rfl) (by rfl) (Or.inl (by rfl)) (by rfl)).1 (by rfl)

/-- C3, counterexample: when the customer already holds two active/trialing
rows, the `.single()`-based duplicate check answers false, so the claimed
blocking does not happen: the handler writes a third row, issues no
cancellation, and answers plain success instead of a blocked outcome. -/
theorem C3_counterexample :
    (fxC3state.db.subscriptions.filter (fun r =>
        r.stripe_customer_id == "cus_1" &&
          (r.status == "active" || r.status == "trialing"))).length = 2 ∧
    (POST fxC3state 10 (.checkoutSessionCompleted sessionSub2)).2 =
      .received ∧
    (POST fxC3state 10
      (.checkoutSessionCompleted sessionSub2)).1.db.subscriptions.length = 3 ∧
    (POST fxC3state 10
      (.checkoutSessionCompleted sessionSub2)).1.cancelRequests = [] := by
  decide

/-- C3, amended: for a checkout-completion event whose customer has exactly
one stored active/trialing subscription row (the duplicate check is a
single-row lookup, so it fires only then), whose identity resolves from a
UUID-shaped client reference naming an existing user, and whose subscription
identifier is known to the provider, the handler writes nothing, issues a
cancellation request for the event's subscription identifier, and reports a
blocked outcome. -/
theorem C3_amended_single_active_blocks (st : WebhookState) (now : Nat)
    (S C U : String) (session : CheckoutSession) (u : UserRecord)
    (hsession : session = { client_reference_id := some U,
                            customer := some C, subscription := some S,
                            customer_details_email := none,
                            customer_email := none })
    (hS : S.isEmpty = false) (hC : C.isEmpty = false)
    (hU : isUuidShaped U = true) (hUne : U.isEmpty = false)
    (huser : st.db.users.filter (fun x => x.id == U) = [u])
    (hone : (st.db.subscriptions.filter (fun r =>
        r.stripe_customer_id == C &&
          (r.status == "active" || r.status == "trialing"))).length = 1)
    (hstripe : (st.stripeSubs.find? (fun x => x.id == S)).isSome = true) :
    POST st now (.checkoutSessionCompleted session) =
      ({ st with cancelRequests := st.cancelRequests ++ [S] }, .blocked) := by
  subst hsession
  have hres := resolveCheckoutUserId_valid_cri st.db
    { client_reference_id := some U, customer := some C,
      subscription := some S, customer_details_email := none,
      customer_email := none } U u rfl hU hUne huser
  have hchk : checkExistingSubscription st.db C = true :=
    (checkExisting_iff_length_one st.db C).mpr hone
  have hcanc : stripeCancel st.stripeSubs S = .ok () := by
    unfold stripeCancel
    rw [hstripe]
    simp
  have hrec : reconcileCheckout st now S U C =
      .ok ({ st with cancelRequests := st.cancelRequests ++ [S] },
        .blocked) := by
    unfold reconcileCheckout
    rw [hchk]
    simp [hcanc]
  simp only [POST, handleCheckoutSessionCompleted]
  simp [strTruthy, hS, hC, hres, hrec]

theorem C3_amended_single_active_blocks_witness :
    POST fxC3oneState 9 (.checkoutSessionCompleted sessionSub2) =
      ({ fxC3oneState with cancelRequests := ["sub_2"] }, .blocked) := by
  have h := C3_amended_single_active_blocks fxC3oneState 9 "sub_2" "cus_1"
    uuidA sessionSub2 userA (by rfl) (by rfl) (by rfl) (by rfl) (by rfl)
    (by rfl) (by rfl) (by rfl)
  simpa using h

/-- C1, counterexample: processing a well-formed checkout-completion event
from a fresh state records no pending association (`checkoutSessionMap` is
never written anywhere), so the subscription-created handler that runs next
for the same identifier has nothing to consume and instead stashes the
subscription into `pendingSubscriptions` (which no code ever reads). -/
theorem C1_counterexample :
    (POST cleanState 10
      (.checkoutSessionCompleted sessionSub1)).1.checkoutSessionMap = [] ∧
    (POST (POST cleanState 10 (.checkoutSessionCompleted sessionSub1)).1 20
      (.customerSubscriptionCreated subObj1)).1.pendingSubscriptions =
        [("sub_1", { id := "sub_1", customer := "cus_1" })] ∧
    (POST (POST cleanState 10 (.checkoutSessionCompleted sessionSub1)).1 20
      (.customerSubscriptionCreated subObj1)).1.checkoutSessionMap = [] := by
  decide

/-- C1, amended: when a subscription-created event is processed before the
checkout-completion event of the same subscription identifier, then after
checkout-completion is processed exactly one subscription record exists for
that identifier, linked to the resolved user and to the event's customer.
The bridging comes from the checkout handler performing the upsert itself:
the subscription-created handler merely stashes the subscription in
`pendingSubscriptions` and changes nothing else, and its consume branch for
a checkout-recorded pending association never runs because
checkout-completion never records one. -/
theorem C1_amended_bridging (st : WebhookState) (now1 now2 : Nat) (U : String)
    (sub : SubscriptionObject) (session : CheckoutSession)
    (ss : StripeSubscription) (u : UserRecord)
    (hsession : session = { client_reference_id := some U,
                            customer := some sub.customer,
                            subscription := some sub.id,
                            customer_details_email := none,
                            customer_email := none })
    (hS : sub.id.isEmpty = false) (hC : sub.customer.isEmpty = false)
    (hU : isUuidShaped U = true) (hUne : U.isEmpty = false)
    (huser : st.db.users.filter (fun x => x.id == U) = [u])
    (hmap : mapGet st.checkoutSessionMap sub.id = none)
    (hnoactive : (st.db.subscriptions.filter (fun r =>
        r.stripe_customer_id == sub.customer &&
          (r.status == "active" || r.status == "trialing"))).length ≠ 1)
    (hnorec : st.db.subscriptions.filter
        (fun r => r.stripe_subscription_id == sub.id) = [])
    (hstripe : st.stripeSubs.find? (fun x => x.id == sub.id) = some ss) :
    (POST st now1 (.customerSubscriptionCreated sub)).1.db = st.db ∧
    (POST (POST st now1 (.customerSubscriptionCreated sub)).1 now2
      (.checkoutSessionCompleted session)).2 = .received ∧
    ((POST (POST st now1 (.customerSubscriptionCreated sub)).1 now2
      (.checkoutSessionCompleted session)).1.db.subscriptions.filter
        (fun r => r.stripe_subscription_id == sub.id)).length = 1 ∧
    (∀ r ∈ (POST (POST st now1 (.customerSubscriptionCreated sub)).1 now2
      (.checkoutSessionCompleted session)).1.db.subscriptions.filter
        (fun r => r.stripe_subscription_id == sub.id),
      r.user_id = U ∧ r.stripe_customer_id = sub.customer) := by
  subst hsession
  have hst1 : POST st now1 (.customerSubscriptionCreated sub) =
      ({ st with
          pendingSubscriptions := mapSet st.pendingSubscriptions sub.id
            { id := sub.id, customer := sub.customer } },
       .received) := by
    simp only [POST, handleSubscriptionCreated, hmap]
  rw [hst1]
  have hnoactive2 : checkExistingSubscription st.db sub.customer = false :=
    checkExisting_false_of_length_ne_one st.db sub.customer hnoactive
  have h2 := handleCheckout_insert
    { st with
      pendingSubscriptions := mapSet st.pendingSubscriptions sub.id
        { id := sub.id, customer := sub.customer } }
    now2 sub.id sub.customer U _ ss u rfl hS hC hU hUne huser hnoactive2
    hnorec hstripe
  rw [h2]
  refine ⟨rfl, rfl, ?_, ?_⟩
  · show ((st.db.subscriptions ++
      [newSubscriptionRow sub.id U sub.customer ss now2]).filter
        (fun r => r.stripe_subscription_id == sub.id)).length = 1
    rw [List.filter_append, hnorec]
    simp [newSubscriptionRow]
  · intro r hr
    have hr2 : r ∈ (st.db.subscriptions ++
        [newSubscriptionRow sub.id U sub.customer ss now2]).filter
          (fun x => x.stripe_subscription_id == sub.id) := hr
    rw [List.filter_append, hnorec] at hr2
    simp only [List.nil_append, List.filter_cons] at hr2
    simp only [newSubscriptionRow, beq_self_eq_true, if_true,
      List.filter_nil, List.mem_singleton] at hr2
    subst hr2
    exact ⟨rfl, rfl⟩

theorem C1_amended_bridging_witness :
    ((POST (POST cleanState 1 (.customerSubscriptionCreated subObj1)).1 2
      (.checkoutSessionCompleted sessionSub1)).1.db.subscriptions.filter
        (fun r => r.stripe_subscription_id == subObj1.id)).length = 1 := by
  have h := C1_amended_bridging cleanState 1 2 uuidA subObj1 sessionSub1
    stripeSub1 userA (by rfl) (by rfl) (by rfl) (by rfl) (by rfl) (by rfl)
    (by rfl) (by decide) (by rfl) (by rfl)
  exact h.2.2.1

/-- C2: redelivering the identical checkout-completion event after a first
successful processing does not update the stored record.  The first delivery
creates the one row for `sub_1`; the second delivery trips the
single-active-subscription check against that very row, answers blocked,
leaves the row untouched, and issues a provider-side cancellation of
`sub_1` — the customer's own just-recorded subscription. -/
theorem C2_redelivery_blocks_and_cancels :
    (POST cleanState 10 (.checkoutSessionCompleted sessionSub1)).2 =
      .received ∧
    ((POST cleanState 10
        (.checkoutSessionCompleted sessionSub1)).1.db.subscriptions.map
      (fun r => r.stripe_subscription_id)) = ["sub_1"] ∧
    (POST (POST cleanState 10 (.checkoutSessionCompleted sessionSub1)).1 20
      (.checkoutSessionCompleted sessionSub1)).2 = .blocked ∧
    (POST (POST cleanState 10 (.checkoutSessionCompleted sessionSub1)).1 20
      (.checkoutSessionCompleted sessionSub1)).1.cancelRequests = ["sub_1"] ∧
    (POST (POST cleanState 10 (.checkoutSessionCompleted sessionSub1)).1 20
      (.checkoutSessionCompleted sessionSub1)).1.db =
      (POST cleanState 10 (.checkoutSessionCompleted sessionSub1)).1.db := by
  decide

/-- C6: `createSubscription` on a subscription identifier with an existing
stored row replaces that row by one that changes only status,
current-period-end, cancel-at-period-end flag and updated-timestamp (owning
user, customer, price and created-timestamp come from the old row), leaves
every other row alone, and returns the existing row as read before the
update; with no existing row it appends one row with every field
populated from the inputs and the provider-side subscription. -/
theorem C6_createSubscription_upsert_frame (db : Db)
    (stripeSubs : List StripeSubscription) (now : Nat) (S U C : String)
    (ss : StripeSubscription) (u : UserRecord)
    (hS : S.isEmpty = false) (hU : U.isEmpty = false) (hC : C.isEmpty = false)
    (huser : db.users.filter (fun x => x.id == U) = [u])
    (hstripe : stripeSubs.find? (fun x => x.id == S) = some ss) :
    (∀ r, db.subscriptions.filter
        (fun x => x.stripe_subscription_id == S) = [r] →
      ∃ r2, createSubscription db stripeSubs now S U C =
          .ok ({ db with subscriptions := db.subscriptions.map (fun x =>
            if x.stripe_subscription_id == S then r2 else x) }, some r) ∧
        r2.user_id = r.user_id ∧
        r2.stripe_customer_id = r.stripe_customer_id ∧
        r2.price_id = r.price_id ∧ r2.created_at = r.created_at ∧
        r2.stripe_subscription_id = r.stripe_subscription_id ∧
        r2.status = ss.status ∧
        r2.current_period_end = ss.current_period_end ∧
        r2.cancel_at_period_end = ss.cancel_at_period_end ∧
        r2.updated_at = now) ∧
    (db.subscriptions.filter (fun x => x.stripe_subscription_id == S) = [] →
      createSubscription db stripeSubs now S U C =
        .ok ({ db with subscriptions :=
            db.subscriptions ++ [newSubscriptionRow S U C ss now] },
          some (newSubscriptionRow S U C ss now)) ∧
      (newSubscriptionRow S U C ss now).user_id = U ∧
      (newSubscriptionRow S U C ss now).stripe_customer_id = C ∧
      (newSubscriptionRow S U C ss now).stripe_subscription_id = S ∧
      (newSubscriptionRow S U C ss now).status = ss.status ∧
      (newSubscriptionRow S U C ss now).current_period_end =
        ss.current_period_end ∧
      (newSubscriptionRow S U C ss now).cancel_at_period_end =
        ss.cancel_at_period_end ∧
      (newSubscriptionRow S U C ss now).created_at = now ∧
      (newSubscriptionRow S U C ss now).updated_at = now) := by
  constructor
  · intro r hexist
    refine ⟨{ r with
        status := ss.status, current_period_end := ss.current_period_end,
        cancel_at_period_end := ss.cancel_at_period_end, updated_at := now },
      ?_, rfl, rfl, rfl, rfl, rfl, rfl, rfl, rfl, rfl⟩
    exact createSubscription_update_eq db stripeSubs now S U C ss u r
      hS hU hC huser hstripe hexist
  · intro hnone
    exact ⟨createSubscription_insert_eq db stripeSubs now S U C ss u
      hS hU hC huser hstripe hnone, rfl, rfl, rfl, rfl, rfl, rfl, rfl, rfl⟩

theorem C6_createSubscription_upsert_frame_witness :
    (∃ r2, createSubscription fxC6db [stripeSub1, stripeSub2] 9 "sub_1"
        uuidA "cus_1" =
        .ok ({ fxC6db with subscriptions := fxC6db.subscriptions.map (fun x =>
          if x.stripe_subscription_id == "sub_1" then r2 else x) },
          some fxC6row) ∧
      r2.user_id = fxC6row.user_id ∧
      r2.stripe_customer_id = fxC6row.stripe_customer_id ∧
      r2.price_id = fxC6row.price_id ∧ r2.created_at = fxC6row.created_at ∧
      r2.stripe_subscription_id = fxC6row.stripe_subscription_id ∧
      r2.status = stripeSub1.status ∧
      r2.current_period_end = stripeSub1.current_period_end ∧
      r2.cancel_at_period_end = stripeSub1.cancel_at_period_end ∧
      r2.updated_at = 9) ∧
    createSubscription cleanState.db [stripeSub1, stripeSub2] 9 "sub_1"
        uuidA "cus_1" =
      .ok ({ cleanState.db with subscriptions := cleanState.db.subscriptions ++
          [newSubscriptionRow "sub_1" uuidA "cus_1" stripeSub1 9] },
        some (newSubscriptionRow "sub_1" uuidA "cus_1" stripeSub1 9)) :=
  ⟨(C6_createSubscription_upsert_frame fxC6db [stripeSub1, stripeSub2] 9
      "sub_1" uuidA "cus_1" stripeSub1 userA (by rfl) (by rfl) (by rfl)
      (by rfl) (by rfl)).1 fxC6row (by rfl),
   ((C6_createSubscription_upsert_frame cleanState.db
      [stripeSub1, stripeSub2] 9 "sub_1" uuidA "cus_1" stripeSub1 userA
      (by rfl) (by rfl) (by rfl) (by rfl) (by rfl)).2 (by rfl)).1⟩

end AppAutomatedMarketing
